import Mathlib

/-!
Shallow embedding of the `documentation` repository: two scikit-learn
tutorial notebooks (kernel-approximation, robust-vs-empirical covariance)
and one R plotting script (2013 US population bar chart), together with
theorems settling the specification claims about them.

The embedding follows the source files:
  * `unnamed/part_000` — the kernel-approximation notebook;
  * `_posts/scikit/robost-vs-empirical-covariance-estimate/...ipynb` —
    the covariance notebook;
  * `auto-docs/executables/r/2013-US-Population.r` — the R bar chart.
Library calls (sklearn estimators, numpy PRNG draws, the plotly service)
are modelled as oracles: deterministic functions supplied as parameters,
since their internals are outside this repository.
-/

namespace Documentation

/-- The statement-level operations occurring in the repository's scripts.
Each constructor corresponds to a kind of statement the scripts contain
(or, for `tryCatch`, `spawnThread` and `asyncTask`, could contain but do
not): library imports, standard-dataset loads, PRNG data fabrication,
estimator fits/scores, timing reads, chart-service calls, the publishing
helper, shell `pip install`, plain local computation, an error handler
wrapping a block, and concurrency primitives. -/
inductive Op where
  | libImport (module : String)
  | loadDataset (loader : String)
  | genRandomData (source : String)
  | fitEstimator (estimator : String)
  | scoreEstimator (estimator : String)
  | timeRead
  | plotCall (service : String) (filename : String)
  | publishCall (page : String)
  | pipInstall (package : String)
  | compute (what : String)
  | tryCatch (body : List Op) (handler : List Op)
  | spawnThread (target : String)
  | asyncTask (target : String)

namespace Op

/-- Holds exactly on the error-handling construct (try/except, R handler). -/
def isHandler : Op → Bool
  | tryCatch _ _ => true
  | _ => false

/-- Holds exactly on operations that create a thread, process, coroutine
or asynchronous task. -/
def isConcurrency : Op → Bool
  | spawnThread _ => true
  | asyncTask _ => true
  | _ => false

/-- Holds on standard-dataset loader calls. -/
def isLoad : Op → Bool
  | loadDataset _ => true
  | _ => false

/-- Holds on operations that fabricate input data from a PRNG. -/
def isGen : Op → Bool
  | genRandomData _ => true
  | _ => false

/-- Holds on estimator `fit` calls. -/
def isFit : Op → Bool
  | fitEstimator _ => true
  | _ => false

/-- Holds on charting-service calls. -/
def isPlot : Op → Bool
  | plotCall _ _ => true
  | _ => false

/-- Holds on the documentation-publishing helper call. -/
def isPublish : Op → Bool
  | publishCall _ => true
  | _ => false

/-- Holds on estimator `score` calls. -/
def isScore : Op → Bool
  | scoreEstimator _ => true
  | _ => false

/-- The page argument of a publish call, `none` on any other operation. -/
def publishPageOf : Op → Option String
  | publishCall p => some p
  | _ => none

end Op

open Op

/-- Operation sequence of the kernel-approximation notebook
(`unnamed/part_000`), cell by cell in execution order: version check,
imports, the calculation cell (digits load, normalisation, split,
estimator construction, kernel/linear SVM fit+score with timing, the
nine-step parameter sweep), the two plotting cells, and the publish cell. -/
def kernelApproxOps : List Op :=
  [ libImport "sklearn", compute "sklearn.__version__",
    libImport "plotly.plotly", libImport "plotly.graph_objs",
    libImport "plotly.tools", libImport "numpy", libImport "time",
    libImport "matplotlib.pyplot", libImport "sklearn.datasets",
    libImport "sklearn.svm", libImport "sklearn.pipeline",
    libImport "sklearn.kernel_approximation", libImport "sklearn.decomposition",
    loadDataset "datasets.load_digits",
    compute "data = digits.data / 16.",
    compute "data -= data.mean(axis=0)",
    compute "train/test split",
    compute "construct kernel_svm, linear_svm",
    compute "construct RBFSampler, Nystroem, pipelines",
    timeRead, fitEstimator "kernel_svm", scoreEstimator "kernel_svm", timeRead,
    timeRead, fitEstimator "linear_svm", scoreEstimator "linear_svm", timeRead,
    compute "sample_sizes = 30 * np.arange(1, 10)",
    timeRead, fitEstimator "nystroem_approx_svm", timeRead,
    timeRead, fitEstimator "fourier_approx_svm", timeRead,
    scoreEstimator "fourier_approx_svm", scoreEstimator "nystroem_approx_svm",
    compute "build accuracy/timing traces",
    plotCall "plotly" "accuracy-training",
    fitEstimator "pca",
    compute "grid along principal components",
    compute "predict decision surfaces, build contour/scatter traces",
    plotCall "plotly" "svm",
    pipInstall "publisher",
    publishCall "scikit-learn/plot-kernel-approximation/" ]

/-- Operation sequence of the robust-vs-empirical covariance notebook:
version check, imports, the calculation cell (data fabricated by
`rng.randn` inside the double loop, MCD and empirical-covariance fits),
the two trace-building/plot cells, and the publish cell. No standard
dataset is loaded anywhere in this notebook. -/
def covarianceOps : List Op :=
  [ libImport "sklearn", compute "sklearn.__version__",
    libImport "plotly.plotly", libImport "plotly.graph_objs",
    libImport "numpy", libImport "matplotlib.pyplot",
    libImport "matplotlib.font_manager", libImport "sklearn.covariance",
    compute "example settings, range_n_outliers, result arrays",
    genRandomData "rng.randn(n_samples, n_features)",
    genRandomData "rng.permutation(n_samples)",
    genRandomData "np.random.randint(2, size=(n_outliers, n_features))",
    fitEstimator "MinCovDet",
    fitEstimator "EmpiricalCovariance (full data)",
    fitEstimator "EmpiricalCovariance (pure data)",
    compute "store error norms",
    compute "build location traces",
    plotCall "plotly" "location-estimation",
    compute "build covariance traces",
    plotCall "plotly" "covariance-estimation",
    pipInstall "publisher",
    publishCall "scikit-learn/plot-robust-vs-empirical-covariance/" ]

/-- Operation sequence of the R script `2013-US-Population.r`: load the
plotly library, build credentials, the literal trace list and layout, and
a single charting-service call. -/
def rScriptOps : List Op :=
  [ libImport "plotly",
    compute "p <- plotly(username, key)",
    compute "data <- list(list(x, y, name, type))",
    compute "layout <- list(...)",
    plotCall "plotly" "2013-US-Population" ]

/-- The three scripts of the repository. -/
def allScripts : List (List Op) := [kernelApproxOps, covarianceOps, rScriptOps]

/-- Flatten an operation to itself plus (recursively) the operations inside
any handler blocks, so that "no try/except anywhere" covers nesting. -/
def flattenOp : Op → List Op
  | Op.tryCatch body handler =>
      Op.tryCatch body handler ::
        ((body.attach.map (fun o => flattenOp o.val)).flatten ++
         (handler.attach.map (fun o => flattenOp o.val)).flatten)
  | o => [o]
decreasing_by
  all_goals
    simp only [Op.tryCatch.sizeOf_spec]
    have h := List.sizeOf_lt_of_mem o.property
    omega

/-- Every operation of a script, handler blocks included. -/
def allOpsOf (script : List Op) : List Op := (script.map flattenOp).flatten

/-! ## Kernel-approximation notebook: train/test split

`data_train, targets_train = data[:n_samples / 2], digits.target[:n_samples / 2]`
`data_test, targets_test = data[n_samples / 2:], digits.target[n_samples / 2:]`
with `n_samples = len(digits.data)` and Python 2 integer division.
The rows of the (normalised) data matrix are embedded as a list. -/

/-- Embedding of `data[:n_samples / 2]` — the first `⌊n/2⌋` rows. -/
def data_train {α : Type} (data : List α) : List α :=
  data.take (data.length / 2)

/-- Embedding of `data[n_samples / 2:]` — the remaining rows. -/
def data_test {α : Type} (data : List α) : List α :=
  data.drop (data.length / 2)

/-! ## Kernel-approximation notebook: the parameter sweep

`sample_sizes = 30 * np.arange(1, 10)`, then for each `D` in it the loop
sets `feature_map__n_components = D` on both pipelines, fits each
(timed), scores each, and appends to the four result lists. The library
fit/score/timing outcomes are oracles: functions of the `n_components`
value the pipeline carries when it is fitted. -/

/-- Embedding of `sample_sizes = 30 * np.arange(1, 10)`. -/
def sample_sizes : List Nat := (List.range' 1 9).map (fun k => 30 * k)

/-- Mutable state of the sweep loop: the `n_components` currently set on
each pipeline, the `n_components` each pipeline was last fitted with, and
the four result lists. -/
structure SweepState where
  fourierParam : Nat
  nystroemParam : Nat
  fourierFitted : Option Nat
  nystroemFitted : Option Nat
  fourier_scores : List ℚ
  nystroem_scores : List ℚ
  fourier_times : List ℚ
  nystroem_times : List ℚ

/-- State before the loop: the four lists are `[]`; the pipelines carry
their construction-time `n_components` defaults (sklearn default 100)
and are unfitted. -/
def sweepInit : SweepState :=
  { fourierParam := 100, nystroemParam := 100,
    fourierFitted := none, nystroemFitted := none,
    fourier_scores := [], nystroem_scores := [],
    fourier_times := [], nystroem_times := [] }

/-- One iteration of `for D in sample_sizes`, with oracles
`fScore nScore fTime nTime` giving the library outcomes as functions of
the `n_components` in force at fit time. Mirrors the body statement by
statement: both `set_params` calls, the timed `nystroem` fit, the timed
`fourier` fit, then the two `score` calls on the fitted pipelines. -/
def sweepBody (fScore nScore fTime nTime : Nat → ℚ) (st : SweepState) (D : Nat) :
    SweepState :=
  let st1 := { st with fourierParam := D, nystroemParam := D }
  let st2 := { st1 with nystroemFitted := some st1.nystroemParam,
                        nystroem_times := st1.nystroem_times ++ [nTime st1.nystroemParam] }
  let st3 := { st2 with fourierFitted := some st2.fourierParam,
                        fourier_times := st2.fourier_times ++ [fTime st2.fourierParam] }
  let st4 := { st3 with fourier_scores :=
                 st3.fourier_scores ++ [(st3.fourierFitted.map fScore).getD 0] }
  { st4 with nystroem_scores :=
      st4.nystroem_scores ++ [(st4.nystroemFitted.map nScore).getD 0] }

/-- The whole sweep loop. -/
def sweepRun (fScore nScore fTime nTime : Nat → ℚ) : SweepState :=
  sample_sizes.foldl (sweepBody fScore nScore fTime nTime) sweepInit

/-! ## Kernel-approximation notebook: fixed-seed feature maps

`feature_map_fourier = RBFSampler(gamma=.2, random_state=1)`
`feature_map_nystroem = Nystroem(gamma=.2, random_state=1)`
A sampler's output is an oracle of the effective seed, `gamma`, the input
data and `n_components`; with `random_state=None` sklearn would draw the
seed from ambient entropy, with `random_state=s` the seed is `s`. -/

/-- Constructor arguments of a feature-map sampler as the notebook sets
them. -/
structure SamplerCfg where
  gamma : ℚ
  random_state : Option Nat

/-- Embedding of `RBFSampler(gamma=.2, random_state=1)`. -/
def feature_map_fourier : SamplerCfg := { gamma := 1/5, random_state := some 1 }

/-- Embedding of `Nystroem(gamma=.2, random_state=1)`. -/
def feature_map_nystroem : SamplerCfg := { gamma := 1/5, random_state := some 1 }

/-- The seed actually used by a sampler: the configured `random_state`
when one is given, otherwise ambient entropy of that execution. -/
def effectiveSeed (random_state : Option Nat) (entropy : Nat) : Nat :=
  match random_state with
  | some s => s
  | none => entropy

/-- A sampler's `transform` output: an oracle applied to the effective
seed, `gamma`, the input data and `n_components`. `M` is the matrix type. -/
def samplerTransform {M : Type} (oracle : Nat → ℚ → M → Nat → M)
    (cfg : SamplerCfg) (entropy : Nat) (data : M) (n_components : Nat) : M :=
  oracle (effectiveSeed cfg.random_state entropy) cfg.gamma data n_components

/-! ## Covariance notebook: settings and the double loop

```
n_samples = 80; n_features = 5; repeat = 10
range_n_outliers = np.concatenate(
    (np.linspace(0, n_samples / 8, 5),
     np.linspace(n_samples / 8, n_samples / 2, 5)[1:-1]))
for i, n_outliers in enumerate(range_n_outliers):
    for j in range(repeat):
        rng = np.random.RandomState(i * j)
        X = rng.randn(n_samples, n_features)
        outliers_index = rng.permutation(n_samples)[:n_outliers]
        outliers_offset = 10. * (np.random.randint(2, size=(n_outliers, n_features)) - 0.5)
```
`/` is Python 2 integer division; the float `n_outliers` is truncated to
an integer when used as a slice bound or a size (the notebook transcript
records the numpy deprecation warning for exactly this). The seeded
`rng` is deterministic in its seed, so its first draw (`randn`) and
second draw (`permutation`) are oracles of the seed; the global
`np.random` stream used for the offsets is threaded as explicit state. -/

/-- Embedding of `n_samples = 80`. -/
def n_samples : Nat := 80

/-- Embedding of `n_features = 5`. -/
def n_features : Nat := 5

/-- Embedding of `repeat = 10`. -/
def repeatCount : Nat := 10

/-- Embedding of `np.linspace`: `num` evenly spaced points from `a` to `b`. -/
def linspace (a b : ℚ) (num : Nat) : List ℚ :=
  (List.range num).map (fun k => a + (b - a) * k / ((num : ℚ) - 1))

/-- Embedding of `range_n_outliers`, the per-level outlier counts (as floats):
`concatenate((linspace(0, 10, 5), linspace(10, 40, 5)[1:-1]))`. -/
def range_n_outliers : List ℚ :=
  linspace 0 ((n_samples / 8 : Nat) : ℚ) 5 ++
    ((linspace ((n_samples / 8 : Nat) : ℚ) ((n_samples / 2 : Nat) : ℚ) 5).drop 1).dropLast

/-- Truncation of a float to an integer as numpy performs it on slice
bounds and sizes (toward zero; all values here are nonnegative, so this
is the floor). -/
def truncInt (q : ℚ) : Nat := (⌊q⌋).toNat

/-- The integer outlier count of level `i`. -/
def nOutliersAt (i : Nat) : Nat := truncInt (range_n_outliers.getD i 0)

/-- The two draws of a freshly seeded `np.random.RandomState`, as oracles
of the seed: `randnDraw seed rows cols` is the first draw
(`rng.randn(rows, cols)`), `permDraw seed n` the second
(`rng.permutation(n)`). `M` is the matrix type. -/
structure SeededRng (M : Type) where
  randnDraw : Nat → Nat → Nat → M
  permDraw : Nat → Nat → List Nat

/-- What one iteration `(i, j)` of the double loop generates before the
estimator fits. -/
structure IterData (M O : Type) where
  X_base : M
  perm : List Nat
  outliers_index : List Nat
  outliers_offset : O

/-- One iteration of the double loop, data-generation part:
seed `i * j`, `X = rng.randn(n_samples, n_features)`,
`outliers_index = rng.permutation(n_samples)[:n_outliers]`,
`outliers_offset` drawn from the global `np.random` stream `g` (of
abstract state type `G`, draw function `gdraw state rows cols`), which
the seeding of `rng` does not touch. -/
def covIteration {M O G : Type} (rng : SeededRng M)
    (gdraw : G → Nat → Nat → O × G) (i j : Nat) (g : G) : IterData M O × G :=
  let seed := i * j
  let X := rng.randnDraw seed n_samples n_features
  let perm := rng.permDraw seed n_samples
  let n_outliers := nOutliersAt i
  let outliers_index := perm.take n_outliers
  let (outliers_offset, g2) := gdraw g n_outliers n_features
  ({ X_base := X, perm := perm, outliers_index := outliers_index,
     outliers_offset := outliers_offset }, g2)

/-- A concrete stand-in for the library PRNG, used to evaluate the
embedding at a point. It obeys the library's shape contract —
`permutation(n)` returns some arrangement of `0..n-1`, `randn(r, c)` an
`r × c` matrix — which is all the theorems below rely on. -/
def sampleRng : SeededRng (List (List ℚ)) :=
  { randnDraw := fun seed rows cols =>
      List.replicate rows (List.replicate cols ((seed : ℚ) + 1)),
    permDraw := fun _ n => List.range n }

/-- A concrete stand-in for the global `np.random` stream: the state is a
draw counter, each draw returns a matrix tagged with the counter. -/
def sampleGlobalDraw (g : Nat) (rows cols : Nat) : List (List ℚ) × Nat :=
  (List.replicate rows (List.replicate cols ((g : ℚ))), g + 1)

/-! ## The R script `2013-US-Population.r`

It builds one literal trace (state abbreviations against 2013 population
strings, `type = "bar"`), a layout, and performs the single service call
`p$plotly(data, kwargs=list(layout=layout, filename="2013-US-Population",
fileopt="overwrite", auto_open="FALSE"))`. -/

/-- One chart trace as the R script builds it. -/
structure RTrace where
  x : List String
  y : List String
  name : String
  type : String

/-- The `x` category vector of the R script, verbatim. -/
def rScriptX : List String :=
  ["AL", "AK", "AZ", "AR", "CA", "CO", "CT", "DE", "DC", "FL", "GE", "HA",
   "ID", "IL", "IN", "IO", "KS", "KY", "LA", "ME", "MD", "MA", "MI", "MN",
   "MS", "MO", "MT", "NE", "NE", "NH", "NJ", "NM", "NY", "NC", "ND", "OH",
   "OK", "OR", "PA", "RI", "SC", "SD", "TN", "TX", "UT", "VT", "VA", "WA",
   "WV", "WI", "WY"]

/-- The `y` value vector of the R script, verbatim (string-typed in the
source). -/
def rScriptY : List String :=
  ["4833722", "735132", "6626624", "2959373", "38332521", "5268367",
   "3596080", "925749", "646449", "19552860", "9992167", "1404054",
   "1612136", "12882135", "6570902", "3090416", "2893957", "4395295",
   "4625470", "1328302", "5928814", "6692824", "9895622", "5420380",
   "2991207", "6044171", "1015165", "1868516", "2790136", "1323459",
   "8899339", "2085287", "19651127", "9848060", "723393", "11570808",
   "3850568", "3930065", "12773801", "1051511", "4774839", "844877",
   "6495978", "26448193", "2900872", "626630", "8260405", "6971406",
   "1854304", "5742713", "582658"]

/-- Embedding of `data <- list(list(x = ..., y = ..., name = "Col2", type = "bar"))`. -/
def rScriptData : List RTrace :=
  [{ x := rScriptX, y := rScriptY, name := "Col2", type := "bar" }]

/-- The single charting-service call the R script performs. -/
structure PlotlyRequest where
  data : List RTrace
  filename : String
  fileopt : String
  auto_open : String

/-- Embedding of the call `p$plotly(data, kwargs=list(layout=layout, filename="2013-US-Population",
fileopt="overwrite", auto_open="FALSE"))`. -/
def rScriptRequest : PlotlyRequest :=
  { data := rScriptData, filename := "2013-US-Population",
    fileopt := "overwrite", auto_open := "FALSE" }

/-! ## Exception propagation

Sequential execution over an oracle `raises` telling which library calls
raise on the given inputs. An operation that raises aborts the run with
that operation as the escaping exception — unless a `tryCatch` surrounds
it, which is the one construct that can swallow it. None of the three
scripts contains a `tryCatch`. -/

/-- Holds when the script contains no error handler, at any nesting
depth. -/
def handlerFree (script : List Op) : Bool :=
  (allOpsOf script).all (fun o => !o.isHandler)

/-- Run a script sequentially: return `Except.error o` for the first
operation `o` whose call raises (propagating it to the top level), unless
a `tryCatch` handles it. In `tryCatch body handler`, an exception in the
body transfers control to the handler; an exception in the handler (or in
an unhandled position) escapes. -/
def runOps (raises : Op → Bool) : List Op → Except Op Unit
  | [] => Except.ok ()
  | Op.tryCatch body handler :: rest =>
      match runOps raises body with
      | Except.ok _ => runOps raises rest
      | Except.error _ =>
          match runOps raises handler with
          | Except.ok _ => runOps raises rest
          | Except.error e => Except.error e
  | o :: rest => if raises o then Except.error o else runOps raises rest
decreasing_by all_goals simp <;> omega

/-- The recorded transcript of the covariance notebook's publish cell
(the `pip install` of the publisher package), line by line as captured in
the notebook output, quote characters elided. -/
def covPublishTranscript : List String :=
  [ "Collecting git+https://github.com/plotly/publisher.git",
    "  Cloning https://github.com/plotly/publisher.git to /tmp/pip-NCrI88-build",
    "Installing collected packages: publisher",
    "  Running setup.py install for publisher ... error",
    "    running install",
    "    running build",
    "    running build_py",
    "    creating build",
    "    creating build/lib.linux-x86_64-2.7",
    "    creating build/lib.linux-x86_64-2.7/publisher",
    "    copying publisher/publisher.py -> build/lib.linux-x86_64-2.7/publisher",
    "    copying publisher/__init__.py -> build/lib.linux-x86_64-2.7/publisher",
    "    running install_lib",
    "    creating /usr/local/lib/python2.7/dist-packages/publisher",
    "    error: could not create /usr/local/lib/python2.7/dist-packages/publisher: Permission denied",
    "Command /usr/bin/python -u -c ... install --record /tmp/pip-tJnxV6-record/install-record.txt --single-version-externally-managed --compile failed with error code 1 in /tmp/pip-NCrI88-build/" ]

/-- Checks that the character list `sub` is a prefix of `s`. -/
def charPrefix : List Char → List Char → Bool
  | [], _ => true
  | _ :: _, [] => false
  | c :: cs, d :: ds => c == d && charPrefix cs ds

/-- Holds when `sub` occurs as a substring of `s`. -/
def containsSub (s sub : String) : Bool :=
  (List.range (s.toList.length + 1)).any (fun k => charPrefix sub.toList (s.toList.drop k))

/-! ## Sequential execution trace

Each operation contributes a start event and a finish event; sequential
evaluation places the finish of each operation before the start of the
next. -/

/-- Start/finish events of an execution. -/
inductive Ev where
  | start (o : Op)
  | finish (o : Op)

/-- The event trace of sequentially executing a script. -/
def trace (script : List Op) : List Ev :=
  script.flatMap (fun o => [Ev.start o, Ev.finish o])

/-! ## Script independence

The shared world the scripts could interact through is a store of named
locations (library-provided datasets they read; the charting-service and
publishing pages they write). Each script's effect on the store is read
off its code: the kernel notebook reads the digits dataset and writes its
two figures and its published page; the covariance notebook reads no
repository-produced location (its data is fabricated from PRNG draws,
summarised in a seed value) and writes its two figures and its page; the
R script writes its single figure from literal data. -/

/-- A named shared location. -/
abbrev Loc := String

/-- The shared store. -/
abbrev Store := Loc → Option String

/-- Overwrite one location. -/
def writeLoc (σ : Store) (l : Loc) (v : String) : Store :=
  fun x => if x = l then some v else σ x

/-- The three scripts. -/
inductive ScriptId where
  | kernelApprox
  | covariance
  | rScript
  deriving DecidableEq

/-- Locations a script reads. -/
def readsOf : ScriptId → List Loc
  | ScriptId.kernelApprox => ["sklearn:load_digits"]
  | ScriptId.covariance => []
  | ScriptId.rScript => []

/-- Locations a script writes. -/
def writesOf : ScriptId → List Loc
  | ScriptId.kernelApprox =>
      ["plotly:accuracy-training", "plotly:svm",
       "publish:scikit-learn/plot-kernel-approximation/"]
  | ScriptId.covariance =>
      ["plotly:location-estimation", "plotly:covariance-estimation",
       "publish:scikit-learn/plot-robust-vs-empirical-covariance/"]
  | ScriptId.rScript => ["plotly:2013-US-Population"]

/-- The effect of running one script on the store. Written values are
functions of that script's own reads (and, for the covariance notebook,
of its PRNG draws) only. -/
def runScript : ScriptId → Store → Store
  | ScriptId.kernelApprox, σ =>
      let digits := (σ "sklearn:load_digits").getD "load_digits(n_class=9)"
      let σ1 := writeLoc σ "plotly:accuracy-training"
        ("figure:accuracy-training(" ++ digits ++ ")")
      let σ2 := writeLoc σ1 "plotly:svm" ("figure:svm(" ++ digits ++ ")")
      writeLoc σ2 "publish:scikit-learn/plot-kernel-approximation/"
        ("page(" ++ digits ++ ")")
  | ScriptId.covariance, σ =>
      let σ1 := writeLoc σ "plotly:location-estimation"
        "figure:location(rng-generated)"
      let σ2 := writeLoc σ1 "plotly:covariance-estimation"
        "figure:covariance(rng-generated)"
      writeLoc σ2 "publish:scikit-learn/plot-robust-vs-empirical-covariance/"
        "page(rng-generated)"
  | ScriptId.rScript, σ =>
      writeLoc σ "plotly:2013-US-Population" "figure:bar(2013-US-Population)"

/-- Run a sequence of scripts left to right. -/
def runSeq (scripts : List ScriptId) (σ : Store) : Store :=
  scripts.foldl (fun σ s => runScript s σ) σ

/-- Holds when the two location lists share no element. -/
def locDisjoint (xs ys : List Loc) : Bool :=
  xs.all (fun l => !(ys.contains l))

/-! ## Helper lemmas -/

/-- The evaluated `range_n_outliers`: `[0, 2.5, 5, 7.5, 10, 17.5, 25, 32.5]`. -/
theorem range_n_outliers_eq :
    range_n_outliers = [0, 5/2, 5, 15/2, 10, 35/2, 25, 65/2] := by
  norm_num [range_n_outliers, linspace, List.range_succ, n_samples]

/-- The truncated outlier counts of the eight levels. -/
theorem nOutliersAt_vals :
    (List.range 8).map nOutliersAt = [0, 2, 5, 7, 10, 17, 25, 32] := by
  simp [List.range_succ, nOutliersAt, range_n_outliers_eq]
  norm_num [truncInt]
  omega

/-- Level 0 asks for zero outliers. -/
theorem nOutliersAt_zero : nOutliersAt 0 = 0 := by
  norm_num [nOutliersAt, range_n_outliers_eq, truncInt]

/-- Level 1 asks for two outliers (2.5 truncated). -/
theorem nOutliersAt_one : nOutliersAt 1 = 2 := by
  norm_num [nOutliersAt, range_n_outliers_eq, truncInt]
  rfl

/-- Flattening distributes over cons. -/
theorem allOpsOf_cons (o : Op) (rest : List Op) :
    allOpsOf (o :: rest) = flattenOp o ++ allOpsOf rest := by
  simp [allOpsOf]

/-- Every operation occurs in its own flattening. -/
theorem mem_flattenOp_self (o : Op) : o ∈ flattenOp o := by
  cases o <;> simp [flattenOp]

/-- The kernel-approximation notebook contains no nested blocks. -/
theorem allOpsOf_kernelApprox : allOpsOf kernelApproxOps = kernelApproxOps := by
  simp [allOpsOf, kernelApproxOps, flattenOp]

/-- The covariance notebook contains no nested blocks. -/
theorem allOpsOf_covariance : allOpsOf covarianceOps = covarianceOps := by
  simp [allOpsOf, covarianceOps, flattenOp]

/-- The R script contains no nested blocks. -/
theorem allOpsOf_rScript : allOpsOf rScriptOps = rScriptOps := by
  simp [allOpsOf, rScriptOps, flattenOp]

/-- A sequential run starting at an operation that is not a handler either
raises there or moves on. -/
theorem runOps_cons_of_not_handler (raises : Op → Bool) (o : Op) (rest : List Op)
    (ho : o.isHandler = false) :
    runOps raises (o :: rest) =
      if raises o then Except.error o else runOps raises rest := by
  cases o
  case tryCatch body handler => simp [Op.isHandler] at ho
  all_goals simp [runOps]

/-- On a handler-free script, a run raises exactly at the first operation
the oracle makes raise, and that exception escapes to the top level. -/
theorem runOps_eq_find (raises : Op → Bool) (s : List Op)
    (hs : handlerFree s = true) :
    runOps raises s = (match s.find? raises with
      | some o => Except.error o
      | none => Except.ok ()) := by
  induction s with
  | nil => simp [runOps]
  | cons o rest ih =>
      rw [handlerFree, allOpsOf_cons, List.all_append] at hs
      obtain ⟨h1, h2⟩ := Bool.and_eq_true_iff.mp hs
      have ho : o.isHandler = false := by
        have hmem := List.all_eq_true.mp h1 o (mem_flattenOp_self o)
        simpa using hmem
      rw [runOps_cons_of_not_handler raises o rest ho]
      rw [ih h2]
      cases hr : raises o <;> simp [List.find?_cons, hr]

/-- One sweep iteration, evaluated: both pipelines get `n_components = D`
set, are fitted with it, and the four lists each gain the oracle value at
`D`. -/
theorem sweepBody_eq (fS nS fT nT : Nat → ℚ) (st : SweepState) (D : Nat) :
    sweepBody fS nS fT nT st D =
      { fourierParam := D, nystroemParam := D,
        fourierFitted := some D, nystroemFitted := some D,
        fourier_scores := st.fourier_scores ++ [fS D],
        nystroem_scores := st.nystroem_scores ++ [nS D],
        fourier_times := st.fourier_times ++ [fT D],
        nystroem_times := st.nystroem_times ++ [nT D] } := rfl

/-- The sweep fold appends one oracle value per size to each list. -/
theorem sweepFold_spec (fS nS fT nT : Nat → ℚ) (sizes : List Nat)
    (st : SweepState) :
    (sizes.foldl (sweepBody fS nS fT nT) st).fourier_scores
        = st.fourier_scores ++ sizes.map fS ∧
    (sizes.foldl (sweepBody fS nS fT nT) st).nystroem_scores
        = st.nystroem_scores ++ sizes.map nS ∧
    (sizes.foldl (sweepBody fS nS fT nT) st).fourier_times
        = st.fourier_times ++ sizes.map fT ∧
    (sizes.foldl (sweepBody fS nS fT nT) st).nystroem_times
        = st.nystroem_times ++ sizes.map nT := by
  induction sizes generalizing st with
  | nil => simp
  | cons D rest ih =>
      have h := ih (sweepBody fS nS fT nT st D)
      simp only [List.foldl_cons] at h ⊢
      simpa [sweepBody_eq] using h

/-- Start/finish positions in the trace of a sequential run: operation
`k` occupies positions `2k` (start) and `2k + 1` (finish). -/
theorem trace_get (s : List Op) (k : Nat) :
    (trace s).get? (2 * k) = (s.get? k).map Ev.start ∧
    (trace s).get? (2 * k + 1) = (s.get? k).map Ev.finish := by
  induction s generalizing k with
  | nil => simp [trace]
  | cons o rest ih =>
      cases k with
      | zero => simp [trace]
      | succ k =>
          have h := ih k
          have e1 : 2 * (k + 1) = 2 * k + 1 + 1 := by omega
          have ht : trace (o :: rest) = Ev.start o :: Ev.finish o :: trace rest := by
            simp [trace]
          rw [e1, ht]
          simpa using h

/-- A script's run leaves every location outside its write set unchanged. -/
theorem runScript_frame (s : ScriptId) (σ : Store) (l : Loc)
    (hl : l ∉ writesOf s) : runScript s σ l = σ l := by
  cases s with
  | kernelApprox =>
      simp [writesOf] at hl
      simp only [runScript, writeLoc]
      rw [if_neg hl.2.2, if_neg hl.2.1, if_neg hl.1]
  | covariance =>
      simp [writesOf] at hl
      simp only [runScript, writeLoc]
      rw [if_neg hl.2.2, if_neg hl.2.1, if_neg hl.1]
  | rScript =>
      simp [writesOf] at hl
      simp only [runScript, writeLoc]
      rw [if_neg hl]

/-- What a script writes depends only on the locations it reads. -/
theorem runScript_reads (s : ScriptId) (σ₁ σ₂ : Store)
    (h : ∀ l ∈ readsOf s, σ₁ l = σ₂ l) (l : Loc) (hl : l ∈ writesOf s) :
    runScript s σ₁ l = runScript s σ₂ l := by
  cases s with
  | kernelApprox =>
      have hd : σ₁ "sklearn:load_digits" = σ₂ "sklearn:load_digits" :=
        h _ (by simp [readsOf])
      simp [writesOf] at hl
      rcases hl with hl | hl | hl <;> subst hl <;> simp [runScript, writeLoc, hd]
  | covariance =>
      simp [writesOf] at hl
      rcases hl with hl | hl | hl <;> subst hl <;> simp [runScript, writeLoc]
  | rScript =>
      simp [writesOf] at hl
      subst hl
      simp [runScript, writeLoc]

/-- No location any script reads is written by any script: the one read
location is the external digits dataset, which no script produces. -/
theorem reads_not_written (b p : ScriptId) (r : Loc) (hr : r ∈ readsOf b) :
    r ∉ writesOf p := by
  cases b <;> cases p <;> simp_all [readsOf, writesOf]

/-- Running any sequence of scripts first does not change what a script
writes: its output locations get the same values as in a run from the
untouched store. -/
theorem runSeq_noninterference (b : ScriptId) (pre : List ScriptId) (σ : Store)
    (l : Loc) (hl : l ∈ writesOf b) :
    runScript b (runSeq pre σ) l = runScript b σ l := by
  induction pre generalizing σ with
  | nil => rfl
  | cons p rest ih =>
      have hseq : runSeq (p :: rest) σ = runSeq rest (runScript p σ) := rfl
      rw [hseq, ih (runScript p σ)]
      refine runScript_reads b (runScript p σ) σ ?_ l hl
      intro r hr
      exact runScript_frame p σ r (reads_not_written b p r hr)

/-! ## Claims -/

/-- Claim C1, counterexample: The claim states that the robust-vs-empirical
covariance notebook obtains its samples-by-features matrix from a
standard dataset loader and does not fabricate its input itself. On the
code this is false: the notebook's operation sequence contains no
dataset-loader call, and it does fabricate its input (via `rng.randn`
and the other PRNG draws). -/
theorem covariance_notebook_fabricates_input :
    ¬(covarianceOps.any Op.isLoad = true ∧
      covarianceOps.all (fun o => !o.isGen) = true) := by
  decide

/-- Claim C1, amended: The kernel-approximation notebook does obtain its
matrix from a standard dataset loader (`datasets.load_digits`) before
any estimator fit and fabricates no input data; the covariance notebook,
however, loads no standard dataset and fabricates its input matrix from
PRNG draws. -/
theorem dataset_acquisition_per_notebook :
    (kernelApproxOps.takeWhile (fun o => !o.isFit)).any Op.isLoad = true ∧
    kernelApproxOps.all (fun o => !o.isGen) = true ∧
    covarianceOps.all (fun o => !o.isLoad) = true ∧
    covarianceOps.any Op.isGen = true := by
  decide

/-- Claim C2: The sweep runs over exactly the nine `n_components` values
30, 60, …, 270 in increasing order; every iteration sets
`feature_map__n_components` on both pipelines before the fits (so each
fit and score happens at that value), and afterwards each of the four
result lists holds exactly nine entries, the `i`-th being the oracle
outcome at the `i`-th sample size. -/
theorem parameter_sweep_nine_components (fS nS fT nT : Nat → ℚ) :
    sample_sizes = [30, 60, 90, 120, 150, 180, 210, 240, 270] ∧
    List.Pairwise (· < ·) sample_sizes ∧
    (∀ st D, sweepBody fS nS fT nT st D =
      { fourierParam := D, nystroemParam := D,
        fourierFitted := some D, nystroemFitted := some D,
        fourier_scores := st.fourier_scores ++ [fS D],
        nystroem_scores := st.nystroem_scores ++ [nS D],
        fourier_times := st.fourier_times ++ [fT D],
        nystroem_times := st.nystroem_times ++ [nT D] }) ∧
    (sweepRun fS nS fT nT).fourier_scores = sample_sizes.map fS ∧
    (sweepRun fS nS fT nT).nystroem_scores = sample_sizes.map nS ∧
    (sweepRun fS nS fT nT).fourier_times = sample_sizes.map fT ∧
    (sweepRun fS nS fT nT).nystroem_times = sample_sizes.map nT ∧
    (sweepRun fS nS fT nT).fourier_scores.length = 9 ∧
    (sweepRun fS nS fT nT).nystroem_scores.length = 9 ∧
    (sweepRun fS nS fT nT).fourier_times.length = 9 ∧
    (sweepRun fS nS fT nT).nystroem_times.length = 9 := by
  obtain ⟨h1, h2, h3, h4⟩ := sweepFold_spec fS nS fT nT sample_sizes sweepInit
  simp only [sweepInit, List.nil_append] at h1 h2 h3 h4
  have hs1 : (sweepRun fS nS fT nT).fourier_scores = sample_sizes.map fS := by
    simpa [sweepRun, sweepInit] using h1
  have hs2 : (sweepRun fS nS fT nT).nystroem_scores = sample_sizes.map nS := by
    simpa [sweepRun, sweepInit] using h2
  have hs3 : (sweepRun fS nS fT nT).fourier_times = sample_sizes.map fT := by
    simpa [sweepRun, sweepInit] using h3
  have hs4 : (sweepRun fS nS fT nT).nystroem_times = sample_sizes.map nT := by
    simpa [sweepRun, sweepInit] using h4
  refine ⟨by decide, by decide, sweepBody_eq fS nS fT nT, hs1, hs2, hs3, hs4,
    ?_, ?_, ?_, ?_⟩
  · rw [hs1, List.length_map]; decide
  · rw [hs2, List.length_map]; decide
  · rw [hs3, List.length_map]; decide
  · rw [hs4, List.length_map]; decide

/-- Claim C2, witness: with a concrete score oracle, the sweep's fourier
score list is that oracle mapped over the nine sample sizes. -/
theorem parameter_sweep_nine_components_witness :
    (sweepRun (fun n => (n : ℚ)) (fun n => (n : ℚ)) (fun n => (n : ℚ))
        (fun n => (n : ℚ))).fourier_scores =
      ([30, 60, 90, 120, 150, 180, 210, 240, 270] : List Nat).map
        (fun n => (n : ℚ)) := by
  have h := parameter_sweep_nine_components (fun n => (n : ℚ)) (fun n => (n : ℚ))
    (fun n => (n : ℚ)) (fun n => (n : ℚ))
  rw [h.2.2.2.1, h.1]
  rfl

/-- Claim C3: None of the three scripts contains an error handler, so for
every oracle of which library calls raise, a run of any script ends in
`Except.error o` for the first raising operation `o` — the exception
propagates uncaught to the top level; and the recorded transcript of the
covariance notebook's publish step indeed shows an unhandled permission
error. -/
theorem exceptions_propagate_uncaught (raises : Op → Bool) :
    handlerFree kernelApproxOps = true ∧
    handlerFree covarianceOps = true ∧
    handlerFree rScriptOps = true ∧
    (runOps raises kernelApproxOps = (match kernelApproxOps.find? raises with
       | some o => Except.error o
       | none => Except.ok ())) ∧
    (runOps raises covarianceOps = (match covarianceOps.find? raises with
       | some o => Except.error o
       | none => Except.ok ())) ∧
    (runOps raises rScriptOps = (match rScriptOps.find? raises with
       | some o => Except.error o
       | none => Except.ok ())) ∧
    covPublishTranscript.any (fun l => containsSub l "Permission denied") = true := by
  have hk : handlerFree kernelApproxOps = true := by
    rw [handlerFree, allOpsOf_kernelApprox]; decide
  have hc : handlerFree covarianceOps = true := by
    rw [handlerFree, allOpsOf_covariance]; decide
  have hr : handlerFree rScriptOps = true := by
    rw [handlerFree, allOpsOf_rScript]; decide
  exact ⟨hk, hc, hr, runOps_eq_find raises _ hk, runOps_eq_find raises _ hc,
    runOps_eq_find raises _ hr, by decide⟩

/-- Claim C3, witness: under an oracle on which only the `pip install`
step raises (the recorded permission-denied scenario), the covariance
notebook's run ends in exactly that error, uncaught. -/
theorem exceptions_propagate_uncaught_witness :
    runOps (fun o => match o with | Op.pipInstall _ => true | _ => false)
        covarianceOps =
      Except.error (Op.pipInstall "publisher") := by
  have h := (exceptions_propagate_uncaught
    (fun o => match o with | Op.pipInstall _ => true | _ => false)).2.2.2.2.1
  rw [h]
  rfl

/-- Claim C4: In both notebooks, `publisher.publish` is the final
operation: the last element of the operation sequence is the publish
call, no earlier operation is a publish, and every dataset load,
estimator fit and chart-service call occurs strictly before it (all of
them lie in `dropLast`). -/
theorem publish_is_last_operation :
    kernelApproxOps.getLast?.bind Op.publishPageOf =
      some "scikit-learn/plot-kernel-approximation/" ∧
    covarianceOps.getLast?.bind Op.publishPageOf =
      some "scikit-learn/plot-robust-vs-empirical-covariance/" ∧
    kernelApproxOps.dropLast.all (fun o => !o.isPublish) = true ∧
    covarianceOps.dropLast.all (fun o => !o.isPublish) = true ∧
    kernelApproxOps.dropLast.countP (fun o => o.isLoad || o.isFit || o.isPlot) =
      kernelApproxOps.countP (fun o => o.isLoad || o.isFit || o.isPlot) ∧
    covarianceOps.dropLast.countP (fun o => o.isLoad || o.isFit || o.isPlot) =
      covarianceOps.countP (fun o => o.isLoad || o.isFit || o.isPlot) := by
  decide

/-- Claim C5: The R script builds exactly one trace, of type `"bar"`, with
the given category and value vectors (51 entries each), and submits it in
a single charting-service call with filename `"2013-US-Population"` and
fileopt `"overwrite"`; its operation sequence contains exactly one
service call and no estimator, dataset or data-generating operation, and
the data reaches the call verbatim. -/
theorem r_script_single_bar_call :
    rScriptRequest.data.length = 1 ∧
    rScriptRequest.data =
      [{ x := rScriptX, y := rScriptY, name := "Col2", type := "bar" }] ∧
    rScriptRequest.filename = "2013-US-Population" ∧
    rScriptRequest.fileopt = "overwrite" ∧
    rScriptX.length = 51 ∧
    rScriptY.length = 51 ∧
    (rScriptOps.filter Op.isPlot).length = 1 ∧
    rScriptOps.all (fun o =>
      !o.isFit && !o.isScore && !o.isLoad && !o.isGen && !o.isPublish) = true := by
  exact ⟨rfl, rfl, rfl, rfl, by decide, by decide, by decide, by decide⟩

/-- Claim C6: The three scripts are mutually independent: no script writes
a location another script reads or writes, and consequently what any
script writes is identical whether or not (and in whatever order) the
other scripts ran before it — a two-run noninterference statement over
the shared store. -/
theorem scripts_noninterfere :
    (∀ a b : ScriptId, a ≠ b →
      locDisjoint (writesOf a) (readsOf b) = true ∧
      locDisjoint (writesOf a) (writesOf b) = true) ∧
    (∀ b : ScriptId, ∀ pre : List ScriptId, b ∉ pre → ∀ σ : Store,
      ∀ l ∈ writesOf b, runScript b (runSeq pre σ) l = runScript b σ l) := by
  constructor
  · intro a b hab
    cases a <;> cases b <;> first
      | exact absurd rfl hab
      | exact ⟨by decide, by decide⟩
  · intro b pre _ σ l hl
    exact runSeq_noninterference b pre σ l hl

/-- Claim C6, witness: The covariance notebook's first figure has the same
content whether the two other scripts ran before it or not. -/
theorem scripts_noninterfere_witness :
    runScript ScriptId.covariance
        (runSeq [ScriptId.kernelApprox, ScriptId.rScript] (fun _ => none))
        "plotly:location-estimation" =
      runScript ScriptId.covariance (fun _ => none)
        "plotly:location-estimation" :=
  scripts_noninterfere.2 ScriptId.covariance
    [ScriptId.kernelApprox, ScriptId.rScript] (by decide) (fun _ => none)
    "plotly:location-estimation" (by decide)

/-- Claim C7, counterexample: The claim asserts that any two iterations
with equal seed products have identical outlier index sets. Iterations
`(i, j) = (0, 1)` and `(1, 0)` have the same seed `0`, yet their chosen
outlier index sets differ: level 0 takes 0 outliers, level 1 takes 2, so
one set is empty and the other has two elements (evaluated on a concrete
PRNG stand-in obeying the library's shape contract). -/
theorem equal_seed_index_sets_differ :
    0 * 1 = 1 * 0 ∧
    (covIteration sampleRng sampleGlobalDraw 0 1 0).1.outliers_index ≠
      (covIteration sampleRng sampleGlobalDraw 1 0 0).1.outliers_index := by
  constructor
  · rfl
  · have h0 : (covIteration sampleRng sampleGlobalDraw 0 1 0).1.outliers_index
        = [] := by
      simp [covIteration, sampleRng, sampleGlobalDraw, nOutliersAt_zero]
    have h1 : (covIteration sampleRng sampleGlobalDraw 1 0 0).1.outliers_index
        = [0, 1] := by
      simp [covIteration, sampleRng, sampleGlobalDraw, nOutliersAt_one]
      decide
    rw [h0, h1]
    decide

/-- Claim C7, amended: For any two iterations `(i, j)` and `(i2, j2)` with
`i * j = i2 * j2`, the generated base matrix `X` and the drawn
permutation are identical; each chosen outlier index set is the
`n_outliers`-prefix of that shared permutation, so the index sets are
identical exactly when the two levels' outlier counts agree, and
otherwise one is a prefix of the other. The outlier offsets come from
the separate global stream: they depend only on the global stream state
and the outlier count, not on the seed `i * j`. -/
theorem seeded_iterations_share_base_data {M O G : Type} (rng : SeededRng M)
    (gdraw : G → Nat → Nat → O × G) (g g2 : G) (i j i2 j2 : Nat)
    (hseed : i * j = i2 * j2) :
    (covIteration rng gdraw i j g).1.X_base =
      (covIteration rng gdraw i2 j2 g2).1.X_base ∧
    (covIteration rng gdraw i j g).1.perm =
      (covIteration rng gdraw i2 j2 g2).1.perm ∧
    (covIteration rng gdraw i j g).1.outliers_index =
      ((covIteration rng gdraw i j g).1.perm).take (nOutliersAt i) ∧
    (nOutliersAt i = nOutliersAt i2 →
      (covIteration rng gdraw i j g).1.outliers_index =
        (covIteration rng gdraw i2 j2 g2).1.outliers_index) ∧
    (nOutliersAt i ≤ nOutliersAt i2 →
      (covIteration rng gdraw i j g).1.outliers_index <+:
        (covIteration rng gdraw i2 j2 g2).1.outliers_index) ∧
    (covIteration rng gdraw i j g).1.outliers_offset =
      (gdraw g (nOutliersAt i) n_features).1 ∧
    (covIteration rng gdraw i j g).2 = (gdraw g (nOutliersAt i) n_features).2 := by
  have hX : (covIteration rng gdraw i j g).1.X_base =
      (covIteration rng gdraw i2 j2 g2).1.X_base := by
    simp [covIteration, hseed]
  have hperm : (covIteration rng gdraw i j g).1.perm =
      (covIteration rng gdraw i2 j2 g2).1.perm := by
    simp [covIteration, hseed]
  have hidx : (covIteration rng gdraw i j g).1.outliers_index =
      ((covIteration rng gdraw i j g).1.perm).take (nOutliersAt i) := by
    simp [covIteration]
  have hidx2 : (covIteration rng gdraw i2 j2 g2).1.outliers_index =
      ((covIteration rng gdraw i2 j2 g2).1.perm).take (nOutliersAt i2) := by
    simp [covIteration]
  refine ⟨hX, hperm, hidx, ?_, ?_, by simp [covIteration], by simp [covIteration]⟩
  · intro hn
    rw [hidx, hidx2, hperm, hn]
  · intro hn
    rw [hidx, hidx2, hperm]
    exact List.take_prefix_take_left _ hn

/-- Claim C7, amended, witness: Iterations `(2, 3)` and `(3, 2)` share the
seed `6`: on the concrete PRNG stand-in their base matrices and
permutations coincide, and the first index set (5 outliers) is a prefix
of the second (7 outliers). -/
theorem seeded_iterations_share_base_data_witness :
    2 * 3 = 3 * 2 ∧
    (covIteration sampleRng sampleGlobalDraw 2 3 0).1.X_base =
      (covIteration sampleRng sampleGlobalDraw 3 2 0).1.X_base ∧
    (covIteration sampleRng sampleGlobalDraw 2 3 0).1.outliers_index <+:
      (covIteration sampleRng sampleGlobalDraw 3 2 0).1.outliers_index := by
  have h := seeded_iterations_share_base_data sampleRng sampleGlobalDraw
    (0 : Nat) (0 : Nat) 2 3 3 2 (by decide)
  refine ⟨by decide, h.1, h.2.2.2.2.1 ?_⟩
  have hv := nOutliersAt_vals
  simp [List.range_succ] at hv
  omega

/-- Claim C8: Both feature maps are constructed with `random_state=1`, so
the effective seed is 1 regardless of the ambient entropy of the
execution: on the same input data and `n_components`, two executions
produce identical transformed feature matrices for both the Fourier
(RBFSampler) and the Nystroem map. -/
theorem fixed_seed_feature_maps {M : Type} (oracle : Nat → ℚ → M → Nat → M)
    (entropy1 entropy2 : Nat) (data : M) (n_components : Nat) :
    samplerTransform oracle feature_map_fourier entropy1 data n_components =
      samplerTransform oracle feature_map_fourier entropy2 data n_components ∧
    samplerTransform oracle feature_map_nystroem entropy1 data n_components =
      samplerTransform oracle feature_map_nystroem entropy2 data n_components ∧
    feature_map_fourier.random_state = some 1 ∧
    feature_map_nystroem.random_state = some 1 :=
  ⟨rfl, rfl, rfl, rfl⟩

/-- Claim C8, witness: a concrete sampler oracle applied under entropies
7 and 99 produces the same transformed output, since the configured seed
1 wins. -/
theorem fixed_seed_feature_maps_witness :
    samplerTransform (fun s g _m D => [(s : ℚ), g, (D : ℚ)])
        feature_map_fourier 7 ([] : List ℚ) 30 =
      samplerTransform (fun s g _m D => [(s : ℚ), g, (D : ℚ)])
        feature_map_fourier 99 ([] : List ℚ) 30 :=
  (fixed_seed_feature_maps (fun s g _m D => [(s : ℚ), g, (D : ℚ)])
    7 99 ([] : List ℚ) 30).1

/-- Claim C9: The train/test split partitions the data exactly: `data_train`
is the first `⌊n/2⌋` rows, `data_test` the remaining `n - ⌊n/2⌋` rows,
their concatenation is the whole dataset, and each position of the
dataset is covered by exactly one of the two parts (positions below
`⌊n/2⌋` by the training part, the rest by the test part). -/
theorem train_test_split_partition {α : Type} (data : List α) :
    data_train data ++ data_test data = data ∧
    (data_train data).length = data.length / 2 ∧
    (data_test data).length = data.length - data.length / 2 ∧
    (∀ k, k < data.length / 2 → (data_train data).get? k = data.get? k) ∧
    (∀ k, data.length / 2 ≤ k →
      (data_test data).get? (k - data.length / 2) = data.get? k) := by
  refine ⟨List.take_append_drop _ _, ?_, List.length_drop _ _, ?_, ?_⟩
  · rw [data_train, List.length_take]
    exact Nat.min_eq_left (Nat.div_le_self _ _)
  · intro k hk
    exact List.get?_take hk
  · intro k hk
    rw [data_test, List.get?_drop]
    congr 1
    omega

/-- Claim C9, witness: The split of a five-element list: the first two
elements train, the last three test, covering every position once. -/
theorem train_test_split_partition_witness :
    data_train [10, 11, 12, 13, 14] ++ data_test [10, 11, 12, 13, 14]
        = [10, 11, 12, 13, 14] ∧
    (data_train ([10, 11, 12, 13, 14] : List Nat)).length = 2 ∧
    (data_train ([10, 11, 12, 13, 14] : List Nat)).get? 1 = some 11 ∧
    (data_test ([10, 11, 12, 13, 14] : List Nat)).get? 1 = some 13 := by
  have h := train_test_split_partition ([10, 11, 12, 13, 14] : List Nat)
  refine ⟨h.1, ?_, ?_, ?_⟩
  · rw [h.2.1]; rfl
  · rw [h.2.2.2.1 1 (by decide)]; rfl
  · have := h.2.2.2.2 3 (by decide)
    simpa using this

/-- Claim C10: No script's operation sequence contains an operation that
creates a thread, process, coroutine or asynchronous task; and execution
is sequential: in the trace of any script, operation `k` finishes at
position `2k + 1`, strictly before operation `k + 1` starts at position
`2k + 2`. -/
theorem execution_sequential :
    (∀ s ∈ allScripts, (allOpsOf s).all (fun o => !o.isConcurrency) = true) ∧
    (∀ s ∈ allScripts, ∀ k : Nat,
      (trace s).get? (2 * k + 1) = (s.get? k).map Ev.finish ∧
      (trace s).get? (2 * k + 2) = (s.get? (k + 1)).map Ev.start) := by
  constructor
  · intro s hs
    simp only [allScripts, List.mem_cons, List.not_mem_nil, or_false] at hs
    rcases hs with h | h | h <;> subst h
    · rw [allOpsOf_kernelApprox]; decide
    · rw [allOpsOf_covariance]; decide
    · rw [allOpsOf_rScript]; decide
  · intro s _ k
    refine ⟨(trace_get s k).2, ?_⟩
    have h := (trace_get s (k + 1)).1
    have e : 2 * (k + 1) = 2 * k + 2 := by omega
    rwa [e] at h

/-- Claim C10, witness: In the R script's trace, the first operation (the
`plotly` library load) finishes at position 1, before the second
operation starts at position 2. -/
theorem execution_sequential_witness :
    (trace rScriptOps).get? 1 = some (Ev.finish (Op.libImport "plotly")) ∧
    (trace rScriptOps).get? 2 =
      some (Ev.start (Op.compute "p <- plotly(username, key)")) := by
  have h := execution_sequential.2 rScriptOps (by simp [allScripts]) 0
  have h1 : (trace rScriptOps).get? 1 = (rScriptOps.get? 0).map Ev.finish := h.1
  have h2 : (trace rScriptOps).get? 2 = (rScriptOps.get? 1).map Ev.start := h.2
  rw [h1, h2]
  exact ⟨rfl, rfl⟩

end Documentation
